import Mathlib

/-!
Verification development for the rezolus in-kernel telemetry core (BPF C
sources). Each C function used by the claims is shallowly embedded as an
executable Lean definition over Nat, with 64-bit (and, where the C types
require it, 32-bit) wraparound made explicit as arithmetic modulo 2 ^ 64
(resp. 2 ^ 32). BPF array maps are modelled as a capacity plus a total
valuation; lookups outside the capacity fail, exactly as
bpf_map_lookup_elem fails on an out-of-range key of an ARRAY map.
-/

/-! ## Histogram indexer: src/common/bpf/histogram.h -/

/--
Embedding of src/common/bpf/histogram.h clz: count leading zeros of a u64,
written as the same branching binary search as the C source (BPF cannot use
the builtin). Note the source returns 63 for value 0 (the final else of the
chain); the trailing return 64 in the C is unreachable.
-/
def clz (value : Nat) : Nat :=
  if value &&& 0xFFFFFFFF00000000 ≠ 0 then
    if value &&& 0xFFFF000000000000 ≠ 0 then
      if value &&& 0xFF00000000000000 ≠ 0 then
        if value &&& 0xF000000000000000 ≠ 0 then
          if value &&& 0xC000000000000000 ≠ 0 then
            if value &&& 0x8000000000000000 ≠ 0 then 0 else 1
          else if value &&& 0x2000000000000000 ≠ 0 then 2
          else 3
        else if value &&& 0x0C00000000000000 ≠ 0 then
          if value &&& 0x0800000000000000 ≠ 0 then 4 else 5
        else if value &&& 0x0200000000000000 ≠ 0 then 6
        else 7
      else if value &&& 0x00F0000000000000 ≠ 0 then
        if value &&& 0x00C0000000000000 ≠ 0 then
          if value &&& 0x0080000000000000 ≠ 0 then 8 else 9
        else if value &&& 0x0020000000000000 ≠ 0 then 10
        else 11
      else if value &&& 0x000C000000000000 ≠ 0 then
        if value &&& 0x0008000000000000 ≠ 0 then 12 else 13
      else if value &&& 0x0002000000000000 ≠ 0 then 14
      else 15
    else if value &&& 0x0000FF0000000000 ≠ 0 then
      if value &&& 0x0000F00000000000 ≠ 0 then
        if value &&& 0x0000C00000000000 ≠ 0 then
          if value &&& 0x0000800000000000 ≠ 0 then 16 else 17
        else if value &&& 0x0000200000000000 ≠ 0 then 18
        else 19
      else if value &&& 0x00000C0000000000 ≠ 0 then
        if value &&& 0x0000080000000000 ≠ 0 then 20 else 21
      else if value &&& 0x0000020000000000 ≠ 0 then 22
      else 23
    else if value &&& 0x000000F000000000 ≠ 0 then
      if value &&& 0x000000C000000000 ≠ 0 then
        if value &&& 0x0000008000000000 ≠ 0 then 24 else 25
      else if value &&& 0x0000002000000000 ≠ 0 then 26
      else 27
    else if value &&& 0x0000000C00000000 ≠ 0 then
      if value &&& 0x0000000800000000 ≠ 0 then 28 else 29
    else if value &&& 0x0000000200000000 ≠ 0 then 30
    else 31
  else if value &&& 0x00000000FFFF0000 ≠ 0 then
    if value &&& 0x00000000FF000000 ≠ 0 then
      if value &&& 0x00000000F0000000 ≠ 0 then
        if value &&& 0x00000000C0000000 ≠ 0 then
          if value &&& 0x0000000080000000 ≠ 0 then 32 else 33
        else if value &&& 0x0000000020000000 ≠ 0 then 34
        else 35
      else if value &&& 0x000000000C000000 ≠ 0 then
        if value &&& 0x0000000008000000 ≠ 0 then 36 else 37
      else if value &&& 0x0000000002000000 ≠ 0 then 38
      else 39
    else if value &&& 0x0000000000F00000 ≠ 0 then
      if value &&& 0x0000000000C00000 ≠ 0 then
        if value &&& 0x0000000000800000 ≠ 0 then 40 else 41
      else if value &&& 0x0000000000200000 ≠ 0 then 42
      else 43
    else if value &&& 0x00000000000C0000 ≠ 0 then
      if value &&& 0x0000000000080000 ≠ 0 then 44 else 45
    else if value &&& 0x0000000000020000 ≠ 0 then 46
    else 47
  else if value &&& 0x000000000000FF00 ≠ 0 then
    if value &&& 0x000000000000F000 ≠ 0 then
      if value &&& 0x000000000000C000 ≠ 0 then
        if value &&& 0x0000000000008000 ≠ 0 then 48 else 49
      else if value &&& 0x000000000002000 ≠ 0 then 50
      else 51
    else if value &&& 0x0000000000000C00 ≠ 0 then
      if value &&& 0x0000000000000800 ≠ 0 then 52 else 53
    else if value &&& 0x0000000000000200 ≠ 0 then 54
    else 55
  else if value &&& 0x00000000000000F0 ≠ 0 then
    if value &&& 0x00000000000000C0 ≠ 0 then
      if value &&& 0x0000000000000080 ≠ 0 then 56 else 57
    else if value &&& 0x0000000000000020 ≠ 0 then 58
    else 59
  else if value &&& 0x000000000000000C ≠ 0 then
    if value &&& 0x0000000000000008 ≠ 0 then 60 else 61
  else if value &&& 0x0000000000000002 ≠ 0 then 62
  else 63

/--
Value, reinterpreted as u64, of the C expression x << s where x is a
(positive, small) int literal and s an unsigned count. In C the result of
the shift has type int (32 bits); BPF (like x86) masks a 32-bit shift count
to 5 bits, and the later conversion of the signed 32-bit result to u64
sign-extends. For s ≤ 30 this is just x * 2 ^ s; for s = 31 (and
correspondingly for larger counts after masking) the high bit lands in the
sign position and the u64 reinterpretation is 2 ^ 64 - 2 ^ 32 + w.
-/
def shl32_sext (x s : Nat) : Nat :=
  let w := (x <<< (s % 32)) % 2 ^ 32
  if w < 2 ^ 31 then w else 2 ^ 64 - 2 ^ 32 + w

/--
Embedding of src/common/bpf/histogram.h value_to_index. The comparison
value < (2 << grouping_power), the subtraction value - (1 << power) and the
product bin * (1 << grouping_power) all involve the int-typed shift
modelled by shl32_sext (the C literals 1 and 2 are int, not u64); the
subtraction and all u64 arithmetic wrap modulo 2 ^ 64, and the u32 return
truncates modulo 2 ^ 32. In the else branch value ≥ 2 holds whenever
grouping_power ≤ 7, so the Nat subtractions 63 - clz value and
power - grouping_power agree with the u64 ones.
-/
def value_to_index (value grouping_power : Nat) : Nat :=
  if value < shl32_sext 2 grouping_power then
    value % 2 ^ 32
  else
    let power := 63 - clz value
    let bin := power - grouping_power + 1
    let offset := ((value + (2 ^ 64 - shl32_sext 1 power)) % 2 ^ 64) >>> (power - grouping_power)
    (bin * shl32_sext 1 grouping_power + offset) % 2 ^ 32

/--
The indexing formula as the specification states it (and as the Rust
histogram crate the C comments cite computes it, in full 64-bit
arithmetic): for v ≥ 2 ^ (m + 1), with p = 63 - clz v the position of the
leading one bit, the bucket is (p - m + 1) * 2 ^ m + ((v - 2 ^ p) >>> (p - m)).
Defined from the words of the spec for comparison against value_to_index.
-/
def spec_value_to_index (value grouping_power : Nat) : Nat :=
  if value < 2 ^ (grouping_power + 1) then
    value
  else
    let power := 63 - clz value
    (power - grouping_power + 1) * 2 ^ grouping_power
      + ((value - 2 ^ power) >>> (power - grouping_power))

/-! ## Counter substrate: src/agent/bpf/helpers.h

A BPF ARRAY map with u64 values: a fixed capacity (max_entries) and a total
valuation giving the u64 stored at each in-range index.
-/

structure ArrayMap where
  cap : Nat
  val : Nat → Nat

namespace ArrayMap

/-- bpf_map_lookup_elem on an ARRAY map: some value iff the index is in range. -/
def lookup (m : ArrayMap) (idx : Nat) : Option Nat :=
  if idx < m.cap then some (m.val idx) else none

/-- bpf_map_update_elem (BPF_ANY) on an ARRAY map: stores iff the index is in
range, otherwise fails silently. Also models a direct store through a
pointer obtained from a successful lookup. -/
def store (m : ArrayMap) (idx v : Nat) : ArrayMap :=
  if idx < m.cap then { cap := m.cap, val := fun j => if j = idx then v else m.val j } else m

end ArrayMap

/-- src/agent/bpf/helpers.h array_add: lookup, and on success an atomic
fetch-add (u64, wrapping). On a failed lookup nothing happens. -/
def array_add (m : ArrayMap) (idx value : Nat) : ArrayMap :=
  match m.lookup idx with
  | some elem => m.store idx ((elem + value) % 2 ^ 64)
  | none => m

/-- src/agent/bpf/helpers.h array_incr. -/
def array_incr (m : ArrayMap) (idx : Nat) : ArrayMap :=
  array_add m idx 1

/-- src/agent/bpf/helpers.h histogram_incr. -/
def histogram_incr (m : ArrayMap) (grouping_power value : Nat) : ArrayMap :=
  array_add m (value_to_index value grouping_power) 1

/-- src/agent/bpf/helpers.h array_set_if_larger: lookup, and on success store
the value iff it is strictly larger than the existing one. -/
def array_set_if_larger (m : ArrayMap) (idx value : Nat) : ArrayMap :=
  match m.lookup idx with
  | some elem => if value > elem then m.store idx value else m
  | none => m

/-! ## Cgroup identity tracking: src/agent/bpf/cgroup.h -/

/-- u64 subtraction x - y (wrapping modulo 2 ^ 64). -/
def u64_sub (x y : Nat) : Nat :=
  (x + (2 ^ 64 - y % 2 ^ 64)) % 2 ^ 64

/-- Reinterpretation of a C int value as the u32 map key formed from its
bytes (two-complement). -/
def u32_of_int (i : Int) : Nat :=
  (i % 2 ^ 32).toNat

def MAX_CGROUPS : Nat := 4096

/-- The fields the kernel exposes for a cgroup at the probe site: css.id
(a C int), css.serial_nr (u64), the cgroup level and handles for the
kernfs names of the cgroup, its parent and its grandparent. Name strings
are abstracted as numeric handles; 0 stands for the zero-initialized
(empty) field. -/
structure CgroupCtx where
  id : Int
  serial : Nat
  level : Int
  name : Nat
  pname : Nat
  gpname : Nat
  deriving DecidableEq

/-- The cgroup_info record pushed on the ring buffer. -/
structure CgroupInfo where
  id : Int
  level : Int
  name : Nat
  pname : Nat
  gpname : Nat
  deriving DecidableEq

/-- Name handle standing for the literal "/" written for the root cgroup. -/
def slash_name : Nat := 47

/-- The record built by handle_new_cgroup: root gets name "/", parent and
grandparent names are read only for level > 0 / level > 1 and otherwise
stay zero-initialized. -/
def mk_cginfo (c : CgroupCtx) : CgroupInfo :=
  { id := c.id
    level := c.level
    name := if c.level = 0 then slash_name else c.name
    pname := if c.level > 0 then c.pname else 0
    gpname := if c.level > 1 then c.gpname else 0 }

/-- The record built by the samplers that inline the new-cgroup block
(runqueue, cpu frequency, cpu perf): all three names are read
unconditionally, and the id field is assigned from the u32 local. -/
def inline_cginfo (c : CgroupCtx) : CgroupInfo :=
  { id := Int.ofNat (u32_of_int c.id)
    level := c.level
    name := c.name
    pname := c.pname
    gpname := c.gpname }

/-- Identifies the map written by a traced action. -/
inductive MapId where
  | counters
  | cgroup_ivcsw
  | cgroup_runq_wait
  | cgroup_offcpu
  | cgroup_syscall (group : Nat)
  deriving DecidableEq

/-- A state-affecting step of a probe, in program order: zeroing a
per-cgroup counter slot, emitting an identity record on the ring buffer,
writing the serial-number table, or adding to a counter. -/
inductive ProbeAction where
  | azero (m : MapId) (idx : Nat)
  | aemit (id : Int)
  | aserial (idx serial : Nat)
  | aadd (m : MapId) (idx v : Nat)
  deriving DecidableEq

def ProbeAction.isZero : ProbeAction → Bool
  | .azero _ _ => true
  | _ => false

def ProbeAction.isEmit : ProbeAction → Bool
  | .aemit _ => true
  | _ => false

/-- True for additions to a per-cgroup counter map (anything but the
per-CPU counters array). -/
def ProbeAction.isCgroupAdd : ProbeAction → Bool
  | .aadd MapId.counters _ _ => false
  | .aadd _ _ _ => true
  | _ => false

/-- none_after p q tr: no action satisfying q occurs strictly after an
action satisfying p. -/
def none_after (p q : ProbeAction → Bool) : List ProbeAction → Bool
  | [] => true
  | a :: rest => ((!p a) || rest.all fun b => !q b) && none_after p q rest

/-- State owned by the cgroup identity tracker: the serial-number table
(ARRAY map of MAX_CGROUPS u64 entries) and the sequence of identity
records emitted on the cgroup_info ring buffer. -/
structure CgState where
  serial_numbers : ArrayMap
  ring : List CgroupInfo

/--
Embedding of src/agent/bpf/cgroup.h handle_new_cgroup. Returns the C
return value (-1 invalid, 1 serial matches, 0 new), the updated tracker
state and the trace of state-affecting actions. The serial-table key is
the int cgroup_id reinterpreted as u32, so a negative id misses the table
and is treated as an error.
-/
def handle_new_cgroup (c : CgroupCtx) (s : CgState) : Int × CgState × List ProbeAction :=
  if (MAX_CGROUPS : Int) ≤ c.id then (-1, s, [])
  else
    match s.serial_numbers.lookup (u32_of_int c.id) with
    | none => (-1, s, [])
    | some prev =>
      if prev = c.serial then (1, s, [])
      else
        let info := mk_cginfo c
        (0,
         { serial_numbers := s.serial_numbers.store (u32_of_int c.id) c.serial
           ring := s.ring ++ [info] },
         [ProbeAction.aemit c.id, ProbeAction.aserial (u32_of_int c.id) c.serial])

/-- n successive observations of the same cgroup context through
handle_new_cgroup. -/
def observe_iter (c : CgroupCtx) : Nat → CgState → CgState
  | 0, s => s
  | n + 1, s => observe_iter c n (handle_new_cgroup c s).2.1

/-! ## Syscall counts sampler: src/agent/samplers/syscall/linux/counts/mod.bpf.c -/

namespace SyscallCounts

/-- COUNTER_GROUP_WIDTH is 16 in this sampler. The 16 per-cgroup family
maps (cgroup_syscall_other, _read, ..., _event) are modelled as a family
indexed 0..15 in the order of the switch (0 other, 1 read, 2 write,
3 poll, 4 lock, 5 time, 6 sleep, 7 socket, 8 yield, 9 filesystem,
10 memory, 11 process, 12 query, 13 ipc, 14 timer, 15 event). -/
structure State where
  counters : ArrayMap
  syscall_lut : ArrayMap
  fam : Nat → ArrayMap
  serial_numbers : ArrayMap
  ring : List CgroupInfo

/-- The family group computed from the lookup table (lines 211-220): 0
unless the id is in range and the table entry, read through a u32 pointer
into the u64 slot, is non-zero and below COUNTER_GROUP_WIDTH. -/
def syscall_group (lut : ArrayMap) (syscall_id : Nat) : Nat :=
  if syscall_id < 1024 then
    match lut.lookup syscall_id with
    | some co =>
      let co32 := co % 2 ^ 32
      if co32 ≠ 0 ∧ co32 < 16 then co32 else 0
    | none => 0
  else 0

/--
Embedding of sys_enter. Inputs: the raw syscall id (a C long), the current
CPU, and the cgroup context of the current task (none when the
sched_task_group field does not exist). Returns the new state and the
action trace. On a new cgroup (handle_new_cgroup returned 0) the sampler
zeroes all 16 per-cgroup family counters - after handle_new_cgroup has
already pushed the identity record and written the serial table - and then
increments the per-cgroup family counter for this event.
-/
def sys_enter (args_id : Int) (cpu : Nat) (task_cgroup : Option CgroupCtx)
    (s : State) : State × List ProbeAction :=
  if args_id < 0 then (s, [])
  else
    let syscall_id := u32_of_int args_id
    let offset := 16 * cpu
    let group := syscall_group s.syscall_lut syscall_id
    let idx := offset + group
    let s := { s with counters := array_incr s.counters idx }
    let tr := [ProbeAction.aadd MapId.counters idx 1]
    match task_cgroup with
    | none => (s, tr)
    | some c =>
      if c.id < (MAX_CGROUPS : Int) then
        let (ret, cg, trcg) :=
          handle_new_cgroup c { serial_numbers := s.serial_numbers, ring := s.ring }
        let s := { s with serial_numbers := cg.serial_numbers, ring := cg.ring }
        let key := u32_of_int c.id
        let (s, trz) :=
          if ret = 0 then
            ({ s with fam := fun g => if g < 16 then (s.fam g).store key 0 else s.fam g },
             [ProbeAction.azero (MapId.cgroup_syscall 0) key,
              ProbeAction.azero (MapId.cgroup_syscall 1) key,
              ProbeAction.azero (MapId.cgroup_syscall 2) key,
              ProbeAction.azero (MapId.cgroup_syscall 3) key,
              ProbeAction.azero (MapId.cgroup_syscall 4) key,
              ProbeAction.azero (MapId.cgroup_syscall 5) key,
              ProbeAction.azero (MapId.cgroup_syscall 6) key,
              ProbeAction.azero (MapId.cgroup_syscall 7) key,
              ProbeAction.azero (MapId.cgroup_syscall 8) key,
              ProbeAction.azero (MapId.cgroup_syscall 9) key,
              ProbeAction.azero (MapId.cgroup_syscall 10) key,
              ProbeAction.azero (MapId.cgroup_syscall 11) key,
              ProbeAction.azero (MapId.cgroup_syscall 12) key,
              ProbeAction.azero (MapId.cgroup_syscall 13) key,
              ProbeAction.azero (MapId.cgroup_syscall 14) key,
              ProbeAction.azero (MapId.cgroup_syscall 15) key])
          else (s, [])
        let fi := if 1 ≤ group ∧ group ≤ 15 then group else 0
        let s := { s with fam := fun g => if g = fi then array_incr (s.fam g) key else s.fam g }
        (s, tr ++ trcg ++ trz ++ [ProbeAction.aadd (MapId.cgroup_syscall fi) key 1])
      else (s, tr)

end SyscallCounts

/-! ## Scheduler runqueue sampler:
src/agent/samplers/scheduler/linux/runqueue/mod.bpf.c -/

namespace Runqueue

/-- What the probe reads from a task_struct: the u32 pid, the task state
as returned by get_task_state, and the sched_task_group cgroup context
(none for a NULL pointer). -/
structure TaskCtx where
  pid : Nat
  tstate : Int
  cgroup : Option CgroupCtx

/-- The maps of the runqueue sampler. counters has MAX_CPUS * 8 slots
(slot 0 IVCSW, slot 1 RUNQ_WAIT); the pairing tables are keyed by pid
(MAX_PID entries); the three histograms have HISTOGRAM_BUCKETS_POW_3
entries; the per-cgroup counters have MAX_CGROUPS entries. -/
structure State where
  counters : ArrayMap
  enqueued_at : ArrayMap
  offcpu_at : ArrayMap
  running_at : ArrayMap
  serial_numbers : ArrayMap
  ring : List CgroupInfo
  runqlat : ArrayMap
  running : ArrayMap
  offcpu : ArrayMap
  cgroup_ivcsw : ArrayMap
  cgroup_runq_wait : ArrayMap
  cgroup_offcpu : ArrayMap

/--
The new-cgroup block that handle__sched_switch inlines twice (lines
211-260 for prev and 305-354 for next): read (id, serial); if the u32 id
is non-zero and below MAX_CGROUPS and the stored serial differs, zero the
three per-cgroup counters, push the identity record, and store the new
serial. Returns the state, the value left in the local cgroup_id variable
(cgroup_id0 is its value from before the block, which survives when the
task group pointer is NULL), and the action trace. The unused C local
int level read from css.serial_nr on line 230 has no effect and is not
modelled.
-/
def observe_cgroup (cg : Option CgroupCtx) (cgroup_id0 : Nat) (s : State) :
    State × Nat × List ProbeAction :=
  match cg with
  | none => (s, cgroup_id0, [])
  | some c =>
    let cgroup_id := u32_of_int c.id
    if cgroup_id ≠ 0 ∧ cgroup_id < MAX_CGROUPS then
      match s.serial_numbers.lookup cgroup_id with
      | some prev =>
        if prev ≠ c.serial then
          ({ s with
              cgroup_ivcsw := s.cgroup_ivcsw.store cgroup_id 0
              cgroup_runq_wait := s.cgroup_runq_wait.store cgroup_id 0
              cgroup_offcpu := s.cgroup_offcpu.store cgroup_id 0
              ring := s.ring ++ [inline_cginfo c]
              serial_numbers := s.serial_numbers.store cgroup_id c.serial },
           cgroup_id,
           [ProbeAction.azero MapId.cgroup_ivcsw cgroup_id,
            ProbeAction.azero MapId.cgroup_runq_wait cgroup_id,
            ProbeAction.azero MapId.cgroup_offcpu cgroup_id,
            ProbeAction.aemit (Int.ofNat cgroup_id),
            ProbeAction.aserial cgroup_id c.serial])
        else (s, cgroup_id, [])
      | none => (s, cgroup_id, [])
    else (s, cgroup_id, [])

/--
First half of handle__sched_switch, in source order: the inlined prev
cgroup block (lines 211-260), the prev-was-RUNNING accounting (lines
269-292: IVCSW counters, re-enqueue of prev, running-time histogram), and
the unconditional offcpu_at[prev.pid] store (line 298). Returns the state
and the value of the local cgroup_id variable.
-/
def switch_prev_phase (prev : TaskCtx) (processor_id ts cgroup_id0 : Nat)
    (s : State) : State × Nat :=
  let pc := observe_cgroup prev.cgroup cgroup_id0 s
  let s := pc.1
  let cgid := pc.2.1
  let s :=
    if prev.tstate = 0 then
      let s := { s with counters := array_incr s.counters (8 * processor_id + 0) }
      let s := { s with cgroup_ivcsw := array_incr s.cgroup_ivcsw cgid }
      let s := { s with enqueued_at := s.enqueued_at.store prev.pid ts }
      match s.running_at.lookup prev.pid with
      | some t =>
        if t ≠ 0 then
          let delta_ns := u64_sub ts t
          let s := { s with running := histogram_incr s.running 3 delta_ns }
          { s with running_at := s.running_at.store prev.pid 0 }
        else s
      | none => s
    else s
  ({ s with offcpu_at := s.offcpu_at.store prev.pid ts }, cgid)

/--
Second half of handle__sched_switch, in source order: the inlined next
cgroup block (lines 305-354), the running_at[next.pid] store, and the
enqueued-completion path (lines 360-394). The completion path computes
delta_ns = ts - enqueued_at[pid] in wrapping u64 arithmetic with no
ordering check before updating the runqlat histogram, and line 389 adds
delta_ns (not offcpu_ns) to cgroup_offcpu, both exactly as the source
does.
-/
def switch_next_phase (next : TaskCtx) (processor_id ts : Nat) (sc : State × Nat) : State :=
  let nc := observe_cgroup next.cgroup sc.2 sc.1
  let s := nc.1
  let cgid := nc.2.1
  let s := { s with running_at := s.running_at.store next.pid ts }
  match s.enqueued_at.lookup next.pid with
  | some t =>
    if t ≠ 0 then
      let delta_ns := u64_sub ts t
      let s := { s with runqlat := histogram_incr s.runqlat 3 delta_ns }
      let s := { s with counters := array_add s.counters (8 * processor_id + 1) delta_ns }
      let s := { s with cgroup_runq_wait := array_add s.cgroup_runq_wait cgid delta_ns }
      let s := { s with enqueued_at := s.enqueued_at.store next.pid 0 }
      match s.offcpu_at.lookup next.pid with
      | some t2 =>
        if t2 ≠ 0 then
          let offcpu_ns := u64_sub ts t2
          let s :=
            if offcpu_ns > delta_ns then
              let offcpu_ns := offcpu_ns - delta_ns
              let s := { s with offcpu := histogram_incr s.offcpu 3 offcpu_ns }
              { s with cgroup_offcpu := array_add s.cgroup_offcpu cgid delta_ns }
            else s
          { s with offcpu_at := s.offcpu_at.store next.pid 0 }
        else s
      | none => s
    else s
  | none => s

/--
Embedding of handle__sched_switch: the prev-side phase followed by the
next-side phase. ts is the bpf_ktime_get_ns reading and cgroup_id0 the
(uninitialized) incoming value of the local cgroup_id variable, which
the per-cgroup counter updates reuse after the inlined cgroup blocks.
-/
def handle_sched_switch (prev next : TaskCtx) (processor_id ts cgroup_id0 : Nat)
    (s : State) : State :=
  switch_next_phase next processor_id ts (switch_prev_phase prev processor_id ts cgroup_id0 s)

end Runqueue

/-! ## TCP connect latency sampler:
src/samplers/tcp/linux/connect_latency/mod.bpf.c -/

namespace ConnectLatency

def TCP_SYN_SENT : Nat := 2

/-- start is a HASH map keyed by the socket identity (the sock pointer as
u64). Its 10240-entry capacity bounds insertions on the connect side; the
completion handler verified here only reads and deletes, so capacity is
not modelled. latency is the POW_3 histogram. -/
structure State where
  start : Nat → Option Nat
  latency : ArrayMap

/-- trace_connect: store the timestamp under the socket identity with
BPF_NOEXIST, i.e. only when no entry exists (exclusive insert). -/
def trace_connect (sk ts : Nat) (s : State) : State :=
  match s.start sk with
  | some _ => s
  | none => { s with start := fun k => if k = sk then some ts else s.start k }

/--
Embedding of handle_tcp_rcv_state_process: only sockets in SYN_SENT are
considered; a missing start entry drops the event; if the stored start is
later than now the histogram update is skipped; otherwise the latency
histogram bucket for the delta is bumped (inlined lookup and fetch-add,
identical to array_incr); in both completed cases the start entry is
deleted.
-/
def handle_tcp_rcv_state_process (sk skc_state now : Nat) (s : State) : State :=
  if skc_state ≠ TCP_SYN_SENT then s
  else
    match s.start sk with
    | none => s
    | some tsp =>
      let s1 :=
        if tsp > now then s
        else
          let delta_ns := now - tsp
          let idx := value_to_index delta_ns 3
          { s with latency := array_add s.latency idx 1 }
      { s1 with start := fun k => if k = sk then none else s1.start k }

/-- tcp_destroy_sock: delete any pending start entry for the socket. -/
def tcp_destroy_sock (sk : Nat) (s : State) : State :=
  { s with start := fun k => if k = sk then none else s.start k }

end ConnectLatency

/-! ## Block I/O latency sampler: src/samplers/blockio/linux/latency/mod.bpf.c -/

namespace BlockioLatency

/-- start is a 65536-entry HASH map keyed by the request pointer; the four
latency histograms are POW_3. As for ConnectLatency, the completion
handler only reads and deletes from start. -/
structure State where
  start : Nat → Option Nat
  read_latency : ArrayMap
  write_latency : ArrayMap
  flush_latency : ArrayMap
  discard_latency : ArrayMap

/-- trace_rq_start (block_rq_insert or block_rq_issue): store the
timestamp under the request pointer, overwriting any previous one. -/
def trace_rq_start (rq ts : Nat) (s : State) : State :=
  { s with start := fun k => if k = rq then some ts else s.start k }

/--
Embedding of handle_block_rq_complete: a missing start entry drops the
event; the op is the low 8 bits of cmd_flags; only when start ≤ now is
the per-op latency histogram bumped (ops other than read/write/flush/
discard fall through the switch untouched); the start entry is deleted in
every completed case.
-/
def handle_block_rq_complete (rq cmd_flags ts : Nat) (s : State) : State :=
  match s.start rq with
  | none => s
  | some tsp =>
    let op := cmd_flags &&& 255
    let s1 :=
      if tsp ≤ ts then
        let delta := ts - tsp
        let idx := value_to_index delta 3
        if op = 0 then { s with read_latency := array_incr s.read_latency idx }
        else if op = 1 then { s with write_latency := array_incr s.write_latency idx }
        else if op = 2 then { s with flush_latency := array_incr s.flush_latency idx }
        else if op = 3 then { s with discard_latency := array_incr s.discard_latency idx }
        else s
      else s
    { s1 with start := fun k => if k = rq then none else s1.start k }

end BlockioLatency

/-! ## Block I/O requests sampler:
src/agent/samplers/blockio/linux/requests/mod.bpf.c -/

namespace BlockioRequests

/-- counters has MAX_CPUS * 8 slots per the layout comment: slots 0-3 are
read/write/flush/discard ops, slots 4-7 the matching byte counts. The
four size histograms are POW_3. -/
structure State where
  counters : ArrayMap
  read_size : ArrayMap
  write_size : ArrayMap
  flush_size : ArrayMap
  discard_size : ArrayMap

/--
Embedding of handle_block_rq_complete: classify by the low 8 bits of
cmd_flags; for op < 4 increment the per-op ops counter at
8 * cpu + op, add nr_bytes at 8 * cpu + op + 4, and bump the per-op size
histogram at value_to_index nr_bytes 3.
-/
def handle_block_rq_complete (cmd_flags nr_bytes cpu : Nat) (s : State) : State :=
  let op := cmd_flags &&& 255
  if op < 4 then
    let idx := 8 * cpu + op
    let s := { s with counters := array_incr s.counters idx }
    let s := { s with counters := array_add s.counters (idx + 4) nr_bytes }
    let hidx := value_to_index nr_bytes 3
    if op = 0 then { s with read_size := array_incr s.read_size hidx }
    else if op = 1 then { s with write_size := array_incr s.write_size hidx }
    else if op = 2 then { s with flush_size := array_incr s.flush_size hidx }
    else if op = 3 then { s with discard_size := array_incr s.discard_size hidx }
    else s
  else s

end BlockioRequests

/-! ## CPU usage sampler, softirq probes:
src/agent/samplers/cpu/linux/usage/mod.bpf.c lines 532-578 -/

namespace CpuUsage

/-- Offsets in the 8-wide cpu_usage counter group of this sampler:
USER 0, SYSTEM 1, SOFTIRQ 2, IRQ 3. -/
def SYSTEM_OFFSET : Nat := 1

def SOFTIRQ_OFFSET : Nat := 2

/-- softirq_start has one u64 slot per CPU (MAX_CPUS entries); softirq and
softirq_time are MAX_CPUS * 16; cpu_usage is MAX_CPUS * 8. -/
structure State where
  softirq_start : ArrayMap
  softirq : ArrayMap
  softirq_time : ArrayMap
  cpu_usage : ArrayMap

/-- Embedding of softirq_enter: store the timestamp in the per-CPU start
slot and increment the per-(cpu, vector) softirq count. -/
def softirq_enter (cpu vec ts : Nat) (s : State) : State :=
  let idx := cpu * 16 + vec
  let s := { s with softirq_start := s.softirq_start.store cpu ts }
  { s with softirq := array_incr s.softirq idx }

/--
Embedding of softirq_exit: a missing or zero start drops the event;
otherwise the u64-wrapping duration now - start is added to
cpu_usage[8 * cpu + SOFTIRQ_OFFSET] (unconditionally - the probe never
reads the interrupted task or its pid) and to
softirq_time[16 * cpu + vec], and the start slot is cleared.
-/
def softirq_exit (cpu vec now : Nat) (s : State) : State :=
  match s.softirq_start.lookup cpu with
  | none => s
  | some st =>
    if st = 0 then s
    else
      let dur := u64_sub now st
      let s := { s with cpu_usage := array_add s.cpu_usage (8 * cpu + SOFTIRQ_OFFSET) dur }
      let s := { s with softirq_time := array_add s.softirq_time (16 * cpu + vec) dur }
      { s with softirq_start := s.softirq_start.store cpu 0 }

end CpuUsage

/-! ## CPU frequency sampler: src/agent/samplers/cpu/linux/frequency/mod.bpf.c -/

namespace Frequency

/-- The per-cgroup aperf/mperf/tsc accumulators and the previous-reading
tables (all declared with MAX_CGROUPS entries in the source; the prev
tables are keyed by the CPU). -/
structure State where
  serial_numbers : ArrayMap
  ring : List CgroupInfo
  cgroup_aperf : ArrayMap
  cgroup_mperf : ArrayMap
  cgroup_tsc : ArrayMap
  aperf_prev : ArrayMap
  mperf_prev : ArrayMap
  tsc_prev : ArrayMap

/--
Embedding of handle__sched_switch. a, m, t are the three
bpf_perf_event_read values on the current CPU. For the outgoing task: if
its int cgroup id is non-zero and below MAX_CGROUPS, run the inline
new-cgroup block, then add the wrapping u64 difference between each
current reading and the per-CPU previous reading to the per-cgroup
accumulator - there is no current-versus-previous ordering check. The
previous readings are stored unconditionally at the end.
-/
def handle_sched_switch (prev_cgroup : Option CgroupCtx) (processor_id a m t : Nat)
    (s : State) : State :=
  let s :=
    match prev_cgroup with
    | none => s
    | some c =>
      if c.id ≠ 0 ∧ c.id < (MAX_CGROUPS : Int) then
        let key := u32_of_int c.id
        let s :=
          match s.serial_numbers.lookup key with
          | some prevs =>
            if prevs ≠ c.serial then
              { s with
                  cgroup_aperf := s.cgroup_aperf.store key 0
                  cgroup_mperf := s.cgroup_mperf.store key 0
                  cgroup_tsc := s.cgroup_tsc.store key 0
                  ring := s.ring ++ [inline_cginfo c]
                  serial_numbers := s.serial_numbers.store key c.serial }
            else s
          | none => s
        let s :=
          match s.aperf_prev.lookup processor_id with
          | some p => { s with cgroup_aperf := array_add s.cgroup_aperf key (u64_sub a p) }
          | none => s
        let s :=
          match s.mperf_prev.lookup processor_id with
          | some p => { s with cgroup_mperf := array_add s.cgroup_mperf key (u64_sub m p) }
          | none => s
        match s.tsc_prev.lookup processor_id with
        | some p => { s with cgroup_tsc := array_add s.cgroup_tsc key (u64_sub t p) }
        | none => s
      else s
  let s := { s with aperf_prev := s.aperf_prev.store processor_id a }
  let s := { s with mperf_prev := s.mperf_prev.store processor_id m }
  { s with tsc_prev := s.tsc_prev.store processor_id t }

end Frequency

/-! ## CPU perf sampler: src/agent/samplers/cpu/linux/perf/mod.bpf.c -/

namespace Perf

structure State where
  serial_numbers : ArrayMap
  ring : List CgroupInfo
  cgroup_cycles : ArrayMap
  cgroup_instructions : ArrayMap
  cycles_prev : ArrayMap
  instructions_prev : ArrayMap

/--
Embedding of handle__sched_switch of the perf sampler: identical in shape
to the frequency sampler with the two counters cycles and instructions;
again the deltas wrap in u64 with no ordering check.
-/
def handle_sched_switch (prev_cgroup : Option CgroupCtx) (processor_id cv iv : Nat)
    (s : State) : State :=
  let s :=
    match prev_cgroup with
    | none => s
    | some c =>
      if c.id ≠ 0 ∧ c.id < (MAX_CGROUPS : Int) then
        let key := u32_of_int c.id
        let s :=
          match s.serial_numbers.lookup key with
          | some prevs =>
            if prevs ≠ c.serial then
              { s with
                  cgroup_cycles := s.cgroup_cycles.store key 0
                  cgroup_instructions := s.cgroup_instructions.store key 0
                  ring := s.ring ++ [inline_cginfo c]
                  serial_numbers := s.serial_numbers.store key c.serial }
            else s
          | none => s
        let s :=
          match s.cycles_prev.lookup processor_id with
          | some p => { s with cgroup_cycles := array_add s.cgroup_cycles key (u64_sub cv p) }
          | none => s
        match s.instructions_prev.lookup processor_id with
        | some p =>
          { s with cgroup_instructions := array_add s.cgroup_instructions key (u64_sub iv p) }
        | none => s
      else s
  let s := { s with cycles_prev := s.cycles_prev.store processor_id cv }
  { s with instructions_prev := s.instructions_prev.store processor_id iv }

end Perf

/-! ## Basic facts about the map model -/

theorem ArrayMap.store_cap (m : ArrayMap) (idx v : Nat) : (m.store idx v).cap = m.cap := by
  unfold ArrayMap.store
  split <;> rfl

theorem ArrayMap.val_store_self (m : ArrayMap) (idx v : Nat) (h : idx < m.cap) :
    (m.store idx v).val idx = v := by
  simp [ArrayMap.store, h]

theorem ArrayMap.val_store_ne (m : ArrayMap) (idx v j : Nat) (h : j ≠ idx) :
    (m.store idx v).val j = m.val j := by
  unfold ArrayMap.store
  split
  · simp [h]
  · rfl

theorem ArrayMap.lookup_store_self (m : ArrayMap) (idx v : Nat) (h : idx < m.cap) :
    (m.store idx v).lookup idx = some v := by
  simp [ArrayMap.lookup, ArrayMap.store, h]

theorem ArrayMap.lookup_store_ne (m : ArrayMap) (idx v j : Nat) (h : j ≠ idx) :
    (m.store idx v).lookup j = m.lookup j := by
  unfold ArrayMap.lookup
  rw [ArrayMap.store_cap, ArrayMap.val_store_ne m idx v j h]

theorem ArrayMap.lookup_eq_some (m : ArrayMap) (idx v : Nat) (h : m.lookup idx = some v) :
    idx < m.cap ∧ m.val idx = v := by
  unfold ArrayMap.lookup at h
  by_cases hc : idx < m.cap
  · rw [if_pos hc] at h
    exact ⟨hc, (Option.some_inj.mp h)⟩
  · rw [if_neg hc] at h
    cases h

theorem array_add_cap (m : ArrayMap) (idx v : Nat) : (array_add m idx v).cap = m.cap := by
  unfold array_add
  split
  · exact ArrayMap.store_cap ..
  · rfl

theorem array_add_val_ne (m : ArrayMap) (idx v j : Nat) (h : j ≠ idx) :
    (array_add m idx v).val j = m.val j := by
  unfold array_add
  split
  · exact ArrayMap.val_store_ne m idx _ j h
  · rfl

/-! ## Claim C1 -/

/--
Claim C1 states that for every grouping power m in [0, 7] and every 64-bit
value v with v ≥ 2 ^ (m + 1), value_to_index v m equals
(p - m + 1) * 2 ^ m + ((v - 2 ^ p) >>> (p - m)) with p = 63 - clz v. The
code computes v - (1 << p) with an int-typed (32-bit) shift, so for
p ≥ 31 the subtracted quantity is the sign-extended 32-bit result rather
than 2 ^ p. At the failing input v = 2 ^ 31 = 2147483648, m = 0 (where
p = 31 and 1 << 31 sign-extends to 2 ^ 64 - 2 ^ 31), the code yields
bucket 34 while the documented formula - the one the cited Rust histogram
crate implements - yields 32.
-/
theorem c1_high_value_indexing_diverges_from_spec :
    value_to_index 2147483648 0 = 34 ∧
    spec_value_to_index 2147483648 0 = 32 ∧
    value_to_index 2147483648 0 ≠ spec_value_to_index 2147483648 0 := by
  refine ⟨by decide, by decide, by decide⟩

/-! ## Claim C2 -/

/--
Claim C2: for every grouping power m in [0, 7] and every value v with
v < 2 ^ (m + 1), value_to_index v m returns exactly v (linear region,
bucket width 1). The guard value < (2 << m) is exactly v < 2 ^ (m + 1)
for m ≤ 7, and the u32 truncation of the returned value is the identity
because v < 2 ^ (m + 1) ≤ 2 ^ 8.
-/
theorem c2_linear_region_identity (v m : Nat) (hm : m ≤ 7) (hv : v < 2 ^ (m + 1)) :
    value_to_index v m = v := by
  have hs : shl32_sext 2 m = 2 ^ (m + 1) := by
    interval_cases m <;> decide
  have hv32 : v < 2 ^ 32 := by
    have h8 : (2 : Nat) ^ (m + 1) ≤ 2 ^ 8 := Nat.pow_le_pow_right (by decide) (by omega)
    omega
  unfold value_to_index
  rw [hs, if_pos hv]
  exact Nat.mod_eq_of_lt hv32

/-- Witness for C2 at v = 9, m = 3. -/
theorem c2_linear_region_identity_witness : value_to_index 9 3 = 9 :=
  c2_linear_region_identity 9 3 (by decide) (by decide)

/-! ## Claim C10 -/

/--
Claim C10: every counter-substrate operation (array_add, array_incr,
histogram_incr, array_set_if_larger) is total: with an index outside the
target array the element lookup fails and the operation is a silent
no-op, and with an in-range index at most the single element at that
index is modified (the capacity and every other element are unchanged).
-/
theorem c10_substrate_total_and_framed :
    (∀ (m : ArrayMap) (idx v : Nat), m.cap ≤ idx → array_add m idx v = m) ∧
    (∀ (m : ArrayMap) (idx v : Nat), idx < m.cap →
        (array_add m idx v).cap = m.cap ∧
        (array_add m idx v).val idx = (m.val idx + v) % 2 ^ 64 ∧
        ∀ j, j ≠ idx → (array_add m idx v).val j = m.val j) ∧
    (∀ (m : ArrayMap) (idx : Nat), m.cap ≤ idx → array_incr m idx = m) ∧
    (∀ (m : ArrayMap) (idx : Nat), idx < m.cap →
        (array_incr m idx).cap = m.cap ∧
        (array_incr m idx).val idx = (m.val idx + 1) % 2 ^ 64 ∧
        ∀ j, j ≠ idx → (array_incr m idx).val j = m.val j) ∧
    (∀ (m : ArrayMap) (g v : Nat), m.cap ≤ value_to_index v g → histogram_incr m g v = m) ∧
    (∀ (m : ArrayMap) (g v : Nat), value_to_index v g < m.cap →
        (histogram_incr m g v).cap = m.cap ∧
        (histogram_incr m g v).val (value_to_index v g)
          = (m.val (value_to_index v g) + 1) % 2 ^ 64 ∧
        ∀ j, j ≠ value_to_index v g → (histogram_incr m g v).val j = m.val j) ∧
    (∀ (m : ArrayMap) (idx v : Nat), m.cap ≤ idx → array_set_if_larger m idx v = m) ∧
    (∀ (m : ArrayMap) (idx v : Nat), idx < m.cap →
        (array_set_if_larger m idx v).cap = m.cap ∧
        (array_set_if_larger m idx v).val idx
          = (if m.val idx < v then v else m.val idx) ∧
        ∀ j, j ≠ idx → (array_set_if_larger m idx v).val j = m.val j) := by
  have hnoop : ∀ (m : ArrayMap) (idx v : Nat), m.cap ≤ idx → array_add m idx v = m := by
    intro m idx v h
    unfold array_add ArrayMap.lookup
    rw [if_neg (by omega)]
  have hin : ∀ (m : ArrayMap) (idx v : Nat), idx < m.cap →
      (array_add m idx v).cap = m.cap ∧
      (array_add m idx v).val idx = (m.val idx + v) % 2 ^ 64 ∧
      ∀ j, j ≠ idx → (array_add m idx v).val j = m.val j := by
    intro m idx v h
    refine ⟨array_add_cap .., ?_, fun j hj => array_add_val_ne m idx v j hj⟩
    unfold array_add ArrayMap.lookup
    rw [if_pos h]
    exact ArrayMap.val_store_self m idx _ h
  refine ⟨hnoop, hin, fun m idx h => hnoop m idx 1 h, fun m idx h => hin m idx 1 h,
    fun m g v h => hnoop m _ 1 h, fun m g v h => hin m _ 1 h, ?_, ?_⟩
  · intro m idx v h
    unfold array_set_if_larger ArrayMap.lookup
    rw [if_neg (by omega)]
  · intro m idx v h
    unfold array_set_if_larger ArrayMap.lookup
    rw [if_pos h]
    by_cases hlt : m.val idx < v
    · simp only [hlt, gt_iff_lt, if_pos hlt]
      exact ⟨ArrayMap.store_cap .., ArrayMap.val_store_self m idx v h,
        fun j hj => ArrayMap.val_store_ne m idx v j hj⟩
    · simp [gt_iff_lt, hlt]

/-- A small concrete map for witnesses: 4 slots, all holding 0. -/
def sample_map : ArrayMap :=
  { cap := 4, val := fun _ => 0 }

/-! ## Claims C3 and C6: the cgroup identity tracker -/

theorem handle_new_cgroup_same (c : CgroupCtx) (s : CgState)
    (hid : c.id < (MAX_CGROUPS : Int))
    (h : s.serial_numbers.lookup (u32_of_int c.id) = some c.serial) :
    handle_new_cgroup c s = (1, s, []) := by
  unfold handle_new_cgroup
  rw [if_neg (not_le.mpr hid), h]
  simp

theorem observe_iter_same (c : CgroupCtx) (hid : c.id < (MAX_CGROUPS : Int)) :
    ∀ (n : Nat) (s : CgState),
      s.serial_numbers.lookup (u32_of_int c.id) = some c.serial →
      observe_iter c n s = s := by
  intro n
  induction n with
  | zero => intro s _; rfl
  | succ k ih =>
    intro s h
    unfold observe_iter
    rw [handle_new_cgroup_same c s hid h]
    exact ih s h

/--
Claim C3: observing a cgroup whose stored serial number already equals the
current serial number is a no-op - handle_new_cgroup returns 1 and leaves
the serial table and ring untouched, and the inlined runqueue block
likewise does nothing - so a sequence of n + 1 observations of the same
(id, serial) pair starting in a state whose stored serial differs
publishes exactly one identity record, appended by the first observation.
-/
theorem c3_same_serial_noop_and_publish_once :
    (∀ (c : CgroupCtx) (s : CgState),
        c.id < (MAX_CGROUPS : Int) →
        s.serial_numbers.lookup (u32_of_int c.id) = some c.serial →
        handle_new_cgroup c s = (1, s, [])) ∧
    (∀ (c : CgroupCtx) (cgroup_id0 : Nat) (s : Runqueue.State),
        s.serial_numbers.lookup (u32_of_int c.id) = some c.serial →
        Runqueue.observe_cgroup (some c) cgroup_id0 s = (s, u32_of_int c.id, [])) ∧
    (∀ (c : CgroupCtx) (s : CgState) (n : Nat),
        0 ≤ c.id → c.id < (MAX_CGROUPS : Int) →
        s.serial_numbers.cap = MAX_CGROUPS →
        s.serial_numbers.val (u32_of_int c.id) ≠ c.serial →
        (observe_iter c (n + 1) s).ring = s.ring ++ [mk_cginfo c]) := by
  refine ⟨fun c s hid h => handle_new_cgroup_same c s hid h, ?_, ?_⟩
  · intro c cg0 s h
    simp only [Runqueue.observe_cgroup]
    by_cases hg : u32_of_int c.id ≠ 0 ∧ u32_of_int c.id < MAX_CGROUPS
    · rw [if_pos hg, h]
      simp
    · rw [if_neg hg]
  · intro c s n h0 hlt hcap hne
    have hb : (MAX_CGROUPS : Int) < 2 ^ 32 := by decide
    have hkey : u32_of_int c.id = c.id.toNat := by
      unfold u32_of_int
      rw [Int.emod_eq_of_lt h0 (lt_trans hlt hb)]
    have hklt : u32_of_int c.id < MAX_CGROUPS := by
      rw [hkey]
      omega
    have hlook : s.serial_numbers.lookup (u32_of_int c.id)
        = some (s.serial_numbers.val (u32_of_int c.id)) := by
      unfold ArrayMap.lookup
      rw [if_pos (by omega)]
    have hstep : handle_new_cgroup c s =
        (0, { serial_numbers := s.serial_numbers.store (u32_of_int c.id) c.serial,
              ring := s.ring ++ [mk_cginfo c] },
         [ProbeAction.aemit c.id, ProbeAction.aserial (u32_of_int c.id) c.serial]) := by
      unfold handle_new_cgroup
      rw [if_neg (not_le.mpr hlt)]
      simp only [hlook]
      rw [if_neg hne]
    unfold observe_iter
    rw [hstep]
    rw [observe_iter_same c hlt n _ (ArrayMap.lookup_store_self _ _ _ (by omega))]

/-- Concrete cgroup context and tracker state for the C3 witness. -/
def cg7 : CgroupCtx :=
  { id := 7, serial := 99, level := 1, name := 21, pname := 22, gpname := 23 }

def cg_state0 : CgState :=
  { serial_numbers := { cap := 4096, val := fun _ => 0 }, ring := [] }

/-- Witness for C3: two observations of (7, 99) from a fresh state publish
exactly one record, and a same-serial observation is a strict no-op. -/
theorem c3_same_serial_noop_and_publish_once_witness :
    (observe_iter cg7 2 cg_state0).ring = cg_state0.ring ++ [mk_cginfo cg7] ∧
    handle_new_cgroup cg7
        { serial_numbers := { cap := 4096, val := fun _ => 99 }, ring := [] } =
      (1, { serial_numbers := { cap := 4096, val := fun _ => 99 }, ring := [] }, []) :=
  ⟨c3_same_serial_noop_and_publish_once.2.2 cg7 cg_state0 1 (by decide) (by decide) rfl
      (by decide),
   c3_same_serial_noop_and_publish_once.1 cg7 _ (by decide) (by decide)⟩

/--
Claim C6: an observation with cgroup id at least MAX_CGROUPS returns
INVALID (-1) and leaves all tracker state unchanged, and the syscall
sampler still increments the per-CPU counter for the event while touching
no per-cgroup counter, serial-table entry or ring record (its whole
cgroup block is skipped by the id range guard).
-/
theorem c6_out_of_range_cgroup_id_invalid :
    (∀ (c : CgroupCtx) (s : CgState), (MAX_CGROUPS : Int) ≤ c.id →
        handle_new_cgroup c s = (-1, s, [])) ∧
    (∀ (args_id : Int) (cpu : Nat) (c : CgroupCtx) (s : SyscallCounts.State),
        0 ≤ args_id → (MAX_CGROUPS : Int) ≤ c.id →
        SyscallCounts.sys_enter args_id cpu (some c) s =
          ({ s with counters := array_incr s.counters (16 * cpu + SyscallCounts.syscall_group s.syscall_lut (u32_of_int args_id)) },
           [ProbeAction.aadd MapId.counters
                (16 * cpu + SyscallCounts.syscall_group s.syscall_lut (u32_of_int args_id)) 1])) := by
  constructor
  · intro c s h
    unfold handle_new_cgroup
    rw [if_pos h]
  · intro args_id cpu c s h0 hid
    simp only [SyscallCounts.sys_enter]
    rw [if_neg (not_lt.mpr h0), if_neg (not_lt.mpr hid)]

/-- Concrete state for the C6 witness. -/
def syscall_state0 : SyscallCounts.State :=
  { counters := { cap := 16384, val := fun _ => 0 }
    syscall_lut := { cap := 1024, val := fun _ => 0 }
    fam := fun _ => { cap := 4096, val := fun _ => 0 }
    serial_numbers := { cap := 4096, val := fun _ => 0 }
    ring := [] }

/-- Out-of-range cgroup context (id 5000 ≥ MAX_CGROUPS) for the C6 witness. -/
def cg_invalid : CgroupCtx :=
  { id := 5000, serial := 3, level := 0, name := 0, pname := 0, gpname := 0 }

/-- Witness for C6 at syscall id 0 on CPU 2 with cgroup id 5000. -/
theorem c6_out_of_range_cgroup_id_invalid_witness :
    handle_new_cgroup cg_invalid cg_state0 = (-1, cg_state0, []) ∧
    SyscallCounts.sys_enter 0 2 (some cg_invalid) syscall_state0 =
      ({ syscall_state0 with counters := array_incr syscall_state0.counters (16 * 2 + SyscallCounts.syscall_group syscall_state0.syscall_lut (u32_of_int 0)) },
       [ProbeAction.aadd MapId.counters
            (16 * 2 + SyscallCounts.syscall_group syscall_state0.syscall_lut (u32_of_int 0)) 1]) :=
  ⟨c6_out_of_range_cgroup_id_invalid.1 cg_invalid cg_state0 (by decide),
   c6_out_of_range_cgroup_id_invalid.2 0 2 cg_invalid syscall_state0 (by decide) (by decide)⟩

/-! ## Claim C4: zeroing versus announcing order -/

/--
Counterexample for claim C4: the syscall-counts sampler, observing a new
cgroup epoch (id 7, serial 99 over a serial table holding 0), emits the
identity record (via handle_new_cgroup) and only afterwards zeroes its
per-cgroup counters: the trace contains an emit action, and the
zeroes-never-after-emit ordering predicate fails on it.
-/
theorem c4_counterexample_syscall_announces_before_zeroing :
    (SyscallCounts.sys_enter 0 2 (some cg7) syscall_state0).2.any ProbeAction.isEmit = true ∧
    none_after ProbeAction.isEmit ProbeAction.isZero
      (SyscallCounts.sys_enter 0 2 (some cg7) syscall_state0).2 = false :=
  ⟨by decide, by decide⟩

/--
Claim C4, amended to match the code: within its inlined new-cgroup block
the runqueue sampler zeroes the per-cgroup counters strictly before
emitting the identity record (no zero action ever follows an emit in that
block's trace); the syscall-counts sampler announces first -
handle_new_cgroup emits the record and updates the serial table - and
zeroes afterwards (no emit ever follows a zero in its trace), while still
zeroing all 16 per-cgroup counters before its own per-cgroup counter
increment for the event (no zero ever follows a per-cgroup add). No
ordering is stated between the runqueue sampler's prev-side per-cgroup
increments and its next-side zeroing: the source orders the prev-side
cgroup_ivcsw increment before the next-side zeroing within one
sched_switch.
-/
theorem c4_amended_zero_announce_order :
    (∀ (cg : Option CgroupCtx) (cgroup_id0 : Nat) (s : Runqueue.State),
        none_after ProbeAction.isEmit ProbeAction.isZero
          (Runqueue.observe_cgroup cg cgroup_id0 s).2.2 = true) ∧
    (∀ (args_id : Int) (cpu : Nat) (tc : Option CgroupCtx) (s : SyscallCounts.State),
        none_after ProbeAction.isZero ProbeAction.isEmit
          (SyscallCounts.sys_enter args_id cpu tc s).2 = true ∧
        none_after ProbeAction.isCgroupAdd ProbeAction.isZero
          (SyscallCounts.sys_enter args_id cpu tc s).2 = true) := by
  constructor
  · intro cg cg0 s
    unfold Runqueue.observe_cgroup
    repeat' (first | rfl | ((try simp only []); split))
  · intro args_id cpu tc s
    constructor <;>
    · unfold SyscallCounts.sys_enter handle_new_cgroup
      repeat' (first | rfl | ((try simp only []); split))

/-! ## Claim C5: handling of completions with now earlier than start -/

theorem observe_cgroup_frame (cg : Option CgroupCtx) (cgroup_id0 : Nat) (s : Runqueue.State) :
    (Runqueue.observe_cgroup cg cgroup_id0 s).1.counters = s.counters ∧
    (Runqueue.observe_cgroup cg cgroup_id0 s).1.enqueued_at = s.enqueued_at ∧
    (Runqueue.observe_cgroup cg cgroup_id0 s).1.offcpu_at = s.offcpu_at ∧
    (Runqueue.observe_cgroup cg cgroup_id0 s).1.running_at = s.running_at ∧
    (Runqueue.observe_cgroup cg cgroup_id0 s).1.runqlat = s.runqlat ∧
    (Runqueue.observe_cgroup cg cgroup_id0 s).1.running = s.running ∧
    (Runqueue.observe_cgroup cg cgroup_id0 s).1.offcpu = s.offcpu := by
  refine ⟨?_, ?_, ?_, ?_, ?_, ?_, ?_⟩ <;>
  · unfold Runqueue.observe_cgroup
    repeat' (first | rfl | ((try simp only []); split))

theorem switch_prev_phase_effects (prev : Runqueue.TaskCtx) (processor_id ts cgroup_id0 : Nat)
    (s : Runqueue.State) :
    (Runqueue.switch_prev_phase prev processor_id ts cgroup_id0 s).1.runqlat = s.runqlat ∧
    ∀ j, j ≠ prev.pid →
      (Runqueue.switch_prev_phase prev processor_id ts cgroup_id0 s).1.enqueued_at.lookup j
        = s.enqueued_at.lookup j := by
  obtain ⟨hc, he, ho, hr, hq, hg, hf⟩ := observe_cgroup_frame prev.cgroup cgroup_id0 s
  unfold Runqueue.switch_prev_phase
  simp only []
  constructor
  · split
    · split
      · split
        · exact hq
        · exact hq
      · exact hq
    · exact hq
  · intro j hj
    split
    · split
      · split
        · simp only [ArrayMap.lookup_store_ne _ _ _ _ hj, he]
        · simp only [ArrayMap.lookup_store_ne _ _ _ _ hj, he]
      · simp only [ArrayMap.lookup_store_ne _ _ _ _ hj, he]
    · rw [he]

theorem switch_next_phase_wrap (next : Runqueue.TaskCtx) (processor_id ts : Nat)
    (sc : Runqueue.State × Nat) (st0 : Nat)
    (hlook : sc.1.enqueued_at.lookup next.pid = some st0) (h0 : st0 ≠ 0) :
    (Runqueue.switch_next_phase next processor_id ts sc).runqlat
        = histogram_incr sc.1.runqlat 3 (u64_sub ts st0) ∧
    (Runqueue.switch_next_phase next processor_id ts sc).enqueued_at.val next.pid = 0 := by
  obtain ⟨hc, he, ho, hr, hq, hg, hf⟩ := observe_cgroup_frame next.cgroup sc.2 sc.1
  have hcap : next.pid < sc.1.enqueued_at.cap := (ArrayMap.lookup_eq_some _ _ _ hlook).1
  have hcap2 : next.pid
      < (Runqueue.observe_cgroup next.cgroup sc.2 sc.1).1.enqueued_at.cap := by
    rw [he]
    exact hcap
  unfold Runqueue.switch_next_phase
  simp only [he, hlook]
  rw [if_pos h0]
  constructor
  · split
    · split
      · split
        · simp only [hq]
        · simp only [hq]
      · simp only [hq]
    · simp only [hq]
  · split
    · split
      · split
        · exact ArrayMap.val_store_self _ _ _ hcap
        · exact ArrayMap.val_store_self _ _ _ hcap
      · exact ArrayMap.val_store_self _ _ _ hcap
    · exact ArrayMap.val_store_self _ _ _ hcap

/--
Claim C5, amended to match the code: in the TCP connect-latency and block
I/O latency subsystems a completion whose timestamp is earlier than the
stored start is dropped silently - no latency histogram changes - and the
start entry is cleared; the scheduler-runqueue subsystem performs no such
check: on a completion with now < start it records the wrapped u64
difference now - start in the runqlat histogram and then clears the start
entry.
-/
theorem c5_amended_clock_anomaly_handling :
    (∀ (sk now : Nat) (s : ConnectLatency.State) (tsp : Nat),
        s.start sk = some tsp → now < tsp →
        (ConnectLatency.handle_tcp_rcv_state_process sk ConnectLatency.TCP_SYN_SENT now s).latency
            = s.latency ∧
        (ConnectLatency.handle_tcp_rcv_state_process sk ConnectLatency.TCP_SYN_SENT now s).start sk
            = none ∧
        ∀ k, k ≠ sk →
          (ConnectLatency.handle_tcp_rcv_state_process sk ConnectLatency.TCP_SYN_SENT now s).start k
            = s.start k) ∧
    (∀ (rq cmd_flags ts : Nat) (s : BlockioLatency.State) (tsp : Nat),
        s.start rq = some tsp → ts < tsp →
        (BlockioLatency.handle_block_rq_complete rq cmd_flags ts s).read_latency
            = s.read_latency ∧
        (BlockioLatency.handle_block_rq_complete rq cmd_flags ts s).write_latency
            = s.write_latency ∧
        (BlockioLatency.handle_block_rq_complete rq cmd_flags ts s).flush_latency
            = s.flush_latency ∧
        (BlockioLatency.handle_block_rq_complete rq cmd_flags ts s).discard_latency
            = s.discard_latency ∧
        (BlockioLatency.handle_block_rq_complete rq cmd_flags ts s).start rq = none ∧
        ∀ k, k ≠ rq →
          (BlockioLatency.handle_block_rq_complete rq cmd_flags ts s).start k = s.start k) ∧
    (∀ (prev next : Runqueue.TaskCtx) (processor_id ts cgroup_id0 : Nat)
        (s : Runqueue.State) (st0 : Nat),
        prev.pid ≠ next.pid →
        s.enqueued_at.lookup next.pid = some st0 → st0 ≠ 0 → ts < st0 →
        (Runqueue.handle_sched_switch prev next processor_id ts cgroup_id0 s).runqlat
            = histogram_incr s.runqlat 3 (u64_sub ts st0) ∧
        (Runqueue.handle_sched_switch prev next processor_id ts cgroup_id0
            s).enqueued_at.val next.pid = 0) := by
  refine ⟨?_, ?_, ?_⟩
  · intro sk now s tsp hs hlt
    unfold ConnectLatency.handle_tcp_rcv_state_process
    rw [if_neg (by simp), hs]
    simp only []
    rw [if_pos (by omega)]
    refine ⟨rfl, ?_, ?_⟩
    · simp
    · intro k hk
      simp [hk]
  · intro rq cmd_flags ts s tsp hs hlt
    unfold BlockioLatency.handle_block_rq_complete
    rw [hs]
    simp only []
    rw [if_neg (by omega)]
    refine ⟨rfl, rfl, rfl, rfl, ?_, ?_⟩
    · simp
    · intro k hk
      simp [hk]
  · intro prev next processor_id ts cgroup_id0 s st0 hpid hlk h0 _
    have hpe := switch_prev_phase_effects prev processor_id ts cgroup_id0 s
    have hlk2 : (Runqueue.switch_prev_phase prev processor_id ts cgroup_id0
        s).1.enqueued_at.lookup next.pid = some st0 := by
      rw [hpe.2 next.pid (fun h => hpid h.symm)]
      exact hlk
    have hw := switch_next_phase_wrap next processor_id ts
      (Runqueue.switch_prev_phase prev processor_id ts cgroup_id0 s) st0 hlk2 h0
    unfold Runqueue.handle_sched_switch
    rw [hw.1, hpe.1]
    exact ⟨rfl, hw.2⟩

/-- Concrete runqueue state for the C5 counterexample: pid 42 was enqueued
at t = 100, everything else zero. -/
def runq_state0 : Runqueue.State :=
  { counters := { cap := 8192, val := fun _ => 0 }
    enqueued_at := { cap := 4194304, val := fun i => if i = 42 then 100 else 0 }
    offcpu_at := { cap := 4194304, val := fun _ => 0 }
    running_at := { cap := 4194304, val := fun _ => 0 }
    serial_numbers := { cap := 4096, val := fun _ => 0 }
    ring := []
    runqlat := { cap := 496, val := fun _ => 0 }
    running := { cap := 496, val := fun _ => 0 }
    offcpu := { cap := 496, val := fun _ => 0 }
    cgroup_ivcsw := { cap := 4096, val := fun _ => 0 }
    cgroup_runq_wait := { cap := 4096, val := fun _ => 0 }
    cgroup_offcpu := { cap := 4096, val := fun _ => 0 } }

def prev_task : Runqueue.TaskCtx := { pid := 7, tstate := 1, cgroup := none }

def next_task : Runqueue.TaskCtx := { pid := 42, tstate := 0, cgroup := none }

/--
Counterexample for claim C5: in the runqueue sampler a sched_switch at
ts = 50 completing an enqueue recorded at t = 100 (so now < start) is not
dropped: the wrapped delta 2 ^ 64 - 50 lands in runqlat bucket 488, which
goes from 0 to 1, contradicting the claim that no histogram bucket is
incremented. (The start entry is cleared, as the claim says.)
-/
theorem c5_counterexample_runqueue_wrapped_delta :
    runq_state0.enqueued_at.val 42 = 100 ∧
    (Runqueue.handle_sched_switch prev_task next_task 0 50 0 runq_state0).runqlat.val 488 = 1 ∧
    runq_state0.runqlat.val 488 = 0 ∧
    (Runqueue.handle_sched_switch prev_task next_task 0 50 0 runq_state0).enqueued_at.val 42
      = 0 :=
  ⟨by decide, by decide, by decide, by decide⟩

/-- Concrete states for the C5 witness. -/
def connect_state0 : ConnectLatency.State :=
  { start := fun k => if k = 1000 then some 500 else none
    latency := { cap := 496, val := fun _ => 0 } }

def blockio_state0 : BlockioLatency.State :=
  { start := fun k => if k = 77 then some 900 else none
    read_latency := { cap := 496, val := fun _ => 0 }
    write_latency := { cap := 496, val := fun _ => 0 }
    flush_latency := { cap := 496, val := fun _ => 0 }
    discard_latency := { cap := 496, val := fun _ => 0 } }

/-- Witness for the amended C5: a connect completion at now = 400 against
start 500 leaves the histogram alone and clears the entry; likewise for a
block completion at ts = 800 against start 900; and the runqueue scenario
of the counterexample state hits the wrapped-delta equation. -/
theorem c5_amended_clock_anomaly_handling_witness :
    (ConnectLatency.handle_tcp_rcv_state_process 1000 ConnectLatency.TCP_SYN_SENT 400
        connect_state0).latency = connect_state0.latency ∧
    (ConnectLatency.handle_tcp_rcv_state_process 1000 ConnectLatency.TCP_SYN_SENT 400
        connect_state0).start 1000 = none ∧
    (BlockioLatency.handle_block_rq_complete 77 0 800 blockio_state0).read_latency
        = blockio_state0.read_latency ∧
    (BlockioLatency.handle_block_rq_complete 77 0 800 blockio_state0).start 77 = none ∧
    (Runqueue.handle_sched_switch prev_task next_task 0 50 0 runq_state0).runqlat
        = histogram_incr runq_state0.runqlat 3 (u64_sub 50 100) :=
  ⟨(c5_amended_clock_anomaly_handling.1 1000 400 connect_state0 500 (by decide) (by decide)).1,
   (c5_amended_clock_anomaly_handling.1 1000 400 connect_state0 500 (by decide) (by decide)).2.1,
   (c5_amended_clock_anomaly_handling.2.1 77 0 800 blockio_state0 900 (by decide) (by decide)).1,
   (c5_amended_clock_anomaly_handling.2.1 77 0 800 blockio_state0 900 (by decide)
      (by decide)).2.2.2.2.1,
   (c5_amended_clock_anomaly_handling.2.2 prev_task next_task 0 50 0 runq_state0 100
      (by decide) (by decide) (by decide) (by decide)).1⟩

/-! ## Claim C7: block I/O small-read scenario -/

/-- All-zero initial state of the blockio requests sampler. -/
def blockio_req_state0 : BlockioRequests.State :=
  { counters := { cap := 8192, val := fun _ => 0 }
    read_size := { cap := 496, val := fun _ => 0 }
    write_size := { cap := 496, val := fun _ => 0 }
    flush_size := { cap := 496, val := fun _ => 0 }
    discard_size := { cap := 496, val := fun _ => 0 } }

/--
Claim C7: a single block_rq_complete with cmd_flags low bits 0 (READ) and
nr_bytes 4096 on CPU 3, from all-zero counters, sets
counters[3 * 8 + 0] = 1 (read ops), counters[3 * 8 + 4] = 4096 (read
bytes) and read_size[value_to_index 4096 3] = read_size[80] = 1, and
changes nothing else: every other counter slot and read_size bucket is
still 0 and the other three size histograms are untouched.
-/
theorem c7_blockio_small_read_scenario :
    (BlockioRequests.handle_block_rq_complete 0 4096 3 blockio_req_state0).counters.val
        (3 * 8 + 0) = 1 ∧
    (BlockioRequests.handle_block_rq_complete 0 4096 3 blockio_req_state0).counters.val
        (3 * 8 + 4) = 4096 ∧
    (BlockioRequests.handle_block_rq_complete 0 4096 3 blockio_req_state0).read_size.val
        (value_to_index 4096 3) = 1 ∧
    value_to_index 4096 3 = 80 ∧
    (∀ j, j ≠ 3 * 8 + 0 → j ≠ 3 * 8 + 4 →
        (BlockioRequests.handle_block_rq_complete 0 4096 3 blockio_req_state0).counters.val j
          = 0) ∧
    (∀ j, j ≠ 80 →
        (BlockioRequests.handle_block_rq_complete 0 4096 3 blockio_req_state0).read_size.val j
          = 0) ∧
    (BlockioRequests.handle_block_rq_complete 0 4096 3 blockio_req_state0).write_size
        = blockio_req_state0.write_size ∧
    (BlockioRequests.handle_block_rq_complete 0 4096 3 blockio_req_state0).flush_size
        = blockio_req_state0.flush_size ∧
    (BlockioRequests.handle_block_rq_complete 0 4096 3 blockio_req_state0).discard_size
        = blockio_req_state0.discard_size := by
  refine ⟨by decide, by decide, by decide, by decide, ?_, ?_, rfl, rfl, rfl⟩
  · intro j h1 h2
    show (array_add (array_incr blockio_req_state0.counters 24) 28 4096).val j = 0
    rw [array_add_val_ne _ 28 4096 j (by omega)]
    unfold array_incr
    rw [array_add_val_ne _ 24 1 j (by omega)]
    rfl
  · intro j hj
    show (array_incr blockio_req_state0.read_size 80).val j = 0
    unfold array_incr
    rw [array_add_val_ne _ 80 1 j hj]
    rfl

/-- Witness for the bounded quantifiers of C7: counter slot 30 and
read_size bucket 81 are untouched. -/
theorem c7_blockio_small_read_scenario_witness :
    (BlockioRequests.handle_block_rq_complete 0 4096 3 blockio_req_state0).counters.val 30 = 0 ∧
    (BlockioRequests.handle_block_rq_complete 0 4096 3 blockio_req_state0).read_size.val 81
      = 0 :=
  ⟨c7_blockio_small_read_scenario.2.2.2.2.1 30 (by decide) (by decide),
   c7_blockio_small_read_scenario.2.2.2.2.2.1 81 (by decide)⟩

/-! ## Claim C8: softirq timing attribution -/

/-- Initial state for the C8 scenario: a NET_RX softirq started on CPU 1
at t = 10000 ns, everything else zero. -/
def cpu_usage_state0 : CpuUsage.State :=
  { softirq_start := { cap := 1024, val := fun i => if i = 1 then 10000 else 0 }
    softirq := { cap := 16384, val := fun _ => 0 }
    softirq_time := { cap := 16384, val := fun _ => 0 }
    cpu_usage := { cap := 8192, val := fun _ => 0 } }

/--
Counterexample for claim C8: the softirq_exit at t = 30000 for the NET_RX
(vector 3) softirq started at t = 10000 on CPU 1 adds the 20000 ns
duration to softirq_time[1 * 16 + 3] as claimed, but attributes it to the
per-CPU SOFTIRQ usage slot (offset 2), not the SYSTEM slot (offset 1):
cpu_usage[1 * 8 + SYSTEM_OFFSET] stays 0 instead of becoming 20000. The
probe never reads the interrupted task, so no pid-0 condition exists.
-/
theorem c8_counterexample_no_idle_system_attribution :
    (CpuUsage.softirq_exit 1 3 30000 cpu_usage_state0).softirq_time.val (1 * 16 + 3)
        = 20000 ∧
    (CpuUsage.softirq_exit 1 3 30000 cpu_usage_state0).cpu_usage.val
        (1 * 8 + CpuUsage.SYSTEM_OFFSET) = 0 ∧
    (CpuUsage.softirq_exit 1 3 30000 cpu_usage_state0).cpu_usage.val
        (1 * 8 + CpuUsage.SOFTIRQ_OFFSET) = 20000 ∧
    (CpuUsage.softirq_exit 1 3 30000 cpu_usage_state0).softirq_start.val 1 = 0 :=
  ⟨by decide, by decide, by decide, by decide⟩

/--
Claim C8, amended to match the code: softirq_entry stores a single
per-CPU start timestamp (and counts the softirq); the matching
softirq_exit adds the duration now - start to the per-(cpu, vector)
softirq time counter at cpu * 16 + vec, adds it unconditionally to the
per-CPU SOFTIRQ usage slot at cpu * 8 + 2 (the interrupted task and its
pid are never consulted, and nothing is ever added to the SYSTEM slot),
and clears the start; a missing or zero start makes the exit a no-op.
-/
theorem c8_amended_softirq_timing :
    (∀ (cpu vec ts : Nat) (s : CpuUsage.State),
        CpuUsage.softirq_enter cpu vec ts s =
          { s with softirq_start := s.softirq_start.store cpu ts,
                   softirq := array_incr s.softirq (cpu * 16 + vec) }) ∧
    (∀ (cpu vec now : Nat) (s : CpuUsage.State) (st : Nat),
        s.softirq_start.lookup cpu = some st → st ≠ 0 →
        CpuUsage.softirq_exit cpu vec now s =
          { s with cpu_usage := array_add s.cpu_usage (8 * cpu + CpuUsage.SOFTIRQ_OFFSET)
                     (u64_sub now st),
                   softirq_time := array_add s.softirq_time (16 * cpu + vec) (u64_sub now st),
                   softirq_start := s.softirq_start.store cpu 0 }) ∧
    (∀ (cpu vec now : Nat) (s : CpuUsage.State),
        s.softirq_start.lookup cpu = some 0 →
        CpuUsage.softirq_exit cpu vec now s = s) := by
  refine ⟨fun cpu vec ts s => rfl, ?_, ?_⟩
  · intro cpu vec now s st hlk h0
    unfold CpuUsage.softirq_exit
    rw [hlk]
    simp only []
    rw [if_neg h0]
  · intro cpu vec now s hlk
    unfold CpuUsage.softirq_exit
    rw [hlk]
    simp

/-- Witness for the amended C8 at the concrete NET_RX scenario. -/
theorem c8_amended_softirq_timing_witness :
    CpuUsage.softirq_exit 1 3 30000 cpu_usage_state0 =
      { cpu_usage_state0 with
          cpu_usage := array_add cpu_usage_state0.cpu_usage (8 * 1 + CpuUsage.SOFTIRQ_OFFSET)
            (u64_sub 30000 10000),
          softirq_time := array_add cpu_usage_state0.softirq_time (16 * 1 + 3)
            (u64_sub 30000 10000),
          softirq_start := cpu_usage_state0.softirq_start.store 1 0 } :=
  c8_amended_softirq_timing.2.1 1 3 30000 cpu_usage_state0 10000 (by decide) (by decide)

/-! ## Claim C9: perf-counter delta accounting on sched_switch -/

/-- Initial state for the C9 scenario: cgroup 1 already known at serial
99; the previous counter readings on CPU 0 are all 10. -/
def freq_state0 : Frequency.State :=
  { serial_numbers := { cap := 4096, val := fun i => if i = 1 then 99 else 0 }
    ring := []
    cgroup_aperf := { cap := 4096, val := fun _ => 0 }
    cgroup_mperf := { cap := 4096, val := fun _ => 0 }
    cgroup_tsc := { cap := 4096, val := fun _ => 0 }
    aperf_prev := { cap := 4096, val := fun i => if i = 0 then 10 else 0 }
    mperf_prev := { cap := 4096, val := fun i => if i = 0 then 10 else 0 }
    tsc_prev := { cap := 4096, val := fun i => if i = 0 then 10 else 0 } }

def cg_freq : CgroupCtx :=
  { id := 1, serial := 99, level := 0, name := 0, pname := 0, gpname := 0 }

/--
Counterexample for claim C9: on a sched_switch where the current aperf
reading 5 is smaller than the stored previous reading 10 for CPU 0 (a
counter reset), the frequency sampler does not treat the delta as zero:
it adds the wrapped difference 2 ^ 64 - 5 to the per-cgroup array, so
cgroup_aperf[1] becomes 2 ^ 64 - 5 instead of staying 0.
-/
theorem c9_counterexample_reset_counter_wraps :
    (Frequency.handle_sched_switch (some cg_freq) 0 5 10 10 freq_state0).cgroup_aperf.val 1
        = 2 ^ 64 - 5 ∧
    freq_state0.cgroup_aperf.val 1 = 0 ∧
    freq_state0.aperf_prev.val 0 = 10 ∧ (5 : Nat) < 10 :=
  ⟨by decide, by decide, by decide, by decide⟩

/--
Claim C9, amended to match the code: in both the frequency and the perf
sampler, the delta added to the per-cgroup array on sched_switch is the
wrapping u64 difference current - previous of the per-CPU readings, with
no current-versus-previous ordering check (so a reset counter contributes
a wrapped-around difference, not zero), and the previous readings are
then replaced by the current ones.
-/
theorem c9_amended_wrapped_delta :
    (∀ (c : CgroupCtx) (processor_id a m t : Nat) (s : Frequency.State) (pa pm pt : Nat),
        c.id ≠ 0 → c.id < (MAX_CGROUPS : Int) →
        s.serial_numbers.lookup (u32_of_int c.id) = some c.serial →
        s.aperf_prev.lookup processor_id = some pa →
        s.mperf_prev.lookup processor_id = some pm →
        s.tsc_prev.lookup processor_id = some pt →
        (Frequency.handle_sched_switch (some c) processor_id a m t s).cgroup_aperf
            = array_add s.cgroup_aperf (u32_of_int c.id) (u64_sub a pa) ∧
        (Frequency.handle_sched_switch (some c) processor_id a m t s).cgroup_mperf
            = array_add s.cgroup_mperf (u32_of_int c.id) (u64_sub m pm) ∧
        (Frequency.handle_sched_switch (some c) processor_id a m t s).cgroup_tsc
            = array_add s.cgroup_tsc (u32_of_int c.id) (u64_sub t pt) ∧
        (Frequency.handle_sched_switch (some c) processor_id a m t s).aperf_prev
            = s.aperf_prev.store processor_id a ∧
        (Frequency.handle_sched_switch (some c) processor_id a m t s).mperf_prev
            = s.mperf_prev.store processor_id m ∧
        (Frequency.handle_sched_switch (some c) processor_id a m t s).tsc_prev
            = s.tsc_prev.store processor_id t) ∧
    (∀ (c : CgroupCtx) (processor_id cv iv : Nat) (s : Perf.State) (pc pi : Nat),
        c.id ≠ 0 → c.id < (MAX_CGROUPS : Int) →
        s.serial_numbers.lookup (u32_of_int c.id) = some c.serial →
        s.cycles_prev.lookup processor_id = some pc →
        s.instructions_prev.lookup processor_id = some pi →
        (Perf.handle_sched_switch (some c) processor_id cv iv s).cgroup_cycles
            = array_add s.cgroup_cycles (u32_of_int c.id) (u64_sub cv pc) ∧
        (Perf.handle_sched_switch (some c) processor_id cv iv s).cgroup_instructions
            = array_add s.cgroup_instructions (u32_of_int c.id) (u64_sub iv pi)) := by
  constructor
  · intro c processor_id a m t s pa pm pt h1 h2 hser hpa hpm hpt
    unfold Frequency.handle_sched_switch
    simp only []
    rw [if_pos ⟨h1, h2⟩]
    simp only [hser]
    rw [if_neg (fun h => h rfl)]
    simp only [hpa, hpm, hpt]
    simp
  · intro c processor_id cv iv s pc pi h1 h2 hser hpc hpi
    unfold Perf.handle_sched_switch
    simp only []
    rw [if_pos ⟨h1, h2⟩]
    simp only [hser]
    rw [if_neg (fun h => h rfl)]
    simp only [hpc, hpi]
    simp

/-- Witness for the amended C9 at the concrete reset scenario (current
aperf reading 5 against previous 10). -/
theorem c9_amended_wrapped_delta_witness :
    (Frequency.handle_sched_switch (some cg_freq) 0 5 10 10 freq_state0).cgroup_aperf
      = array_add freq_state0.cgroup_aperf (u32_of_int 1) (u64_sub 5 10) :=
  (c9_amended_wrapped_delta.1 cg_freq 0 5 10 10 freq_state0 10 10 10 (by decide) (by decide)
    (by decide) (by decide) (by decide) (by decide)).1

/-- Witness for C10: out-of-range index 9 is a no-op on sample_map, and an
in-range add at index 2 changes exactly that element. -/
theorem c10_substrate_total_and_framed_witness :
    array_add sample_map 9 5 = sample_map ∧
    (array_add sample_map 2 5).val 2 = (sample_map.val 2 + 5) % 2 ^ 64 ∧
    (array_add sample_map 2 5).val 1 = sample_map.val 1 ∧
    array_set_if_larger sample_map 7 5 = sample_map :=
  ⟨c10_substrate_total_and_framed.1 sample_map 9 5 (by decide),
   (c10_substrate_total_and_framed.2.1 sample_map 2 5 (by decide)).2.1,
   (c10_substrate_total_and_framed.2.1 sample_map 2 5 (by decide)).2.2 1 (by decide),
   (c10_substrate_total_and_framed.2.2.2.2.2.2.1 sample_map 7 5 (by decide))⟩
